import Mathlib

/-!
Shallow embedding of `api/models.py` (bitcart): the persistent data model
(users, tokens, wallets, stores, products, invoices, the product×invoice
join table), the custom invoice update request, invoice creation against a
wallet RPC collaborator, and token issuance.

Database state is modelled as lists of rows; every mutating operation is a
pure function from a `DB` to a new `DB` (plus a result or error).  Effects
of external collaborators (the wallet RPC, the OS random source, the clock)
are passed in as explicit parameters.  Python exceptions are modelled with
`Except` / an explicit error component, keeping the state mutated so far,
since the code runs with no enclosing transaction.
-/

set_option autoImplicit false

namespace Bitcart

/-- Row of table `users`. -/
structure UserRow where
  id : Nat
  username : String
  email : String
  hashed_password : String
  is_superuser : Bool
  deriving Repr, DecidableEq

/-- Row of table `tokens`: `key` is the 40-char primary key, `user_id` the
FK to `users.id` (ondelete CASCADE), `created` a UTC timestamp. -/
structure TokenRow where
  key : String
  user_id : Option Nat
  created : Nat
  deriving Repr, DecidableEq

/-- Row of table `wallets`. -/
structure WalletRow where
  id : Nat
  name : String
  xpub : String
  balance : Int
  user_id : Option Nat
  deriving Repr, DecidableEq

/-- Row of table `stores` (email/SMTP columns kept as plain data). -/
structure StoreRow where
  id : Nat
  name : String
  domain : String
  template : String
  email : String
  wallet_id : Option Nat
  email_host : String
  email_password : String
  email_port : Nat
  email_use_ssl : Bool
  email_user : String
  deriving Repr, DecidableEq

/-- Row of table `products`. -/
structure ProductRow where
  id : Nat
  amount : Int
  quantity : Int
  title : String
  date : Nat
  description : String
  image : String
  store_id : Option Nat
  status : String
  deriving Repr, DecidableEq

/-- Row of the join table `productsxinvoices`.  Both columns are nullable
foreign keys (`ondelete="SET NULL"` in the source). -/
structure PxIRow where
  product_id : Option Nat
  invoice_id : Option Nat
  deriving Repr, DecidableEq

/-- Row of table `invoices`. -/
structure InvoiceRow where
  id : Nat
  amount : Int
  status : String
  date : Nat
  bitcoin_address : String
  bitcoin_url : String
  deriving Repr, DecidableEq

/-- The database: one list of rows per table. -/
structure DB where
  users : List UserRow
  tokens : List TokenRow
  wallets : List WalletRow
  stores : List StoreRow
  products : List ProductRow
  invoices : List InvoiceRow
  productsxinvoices : List PxIRow
  deriving Repr, DecidableEq

/-- Declared referential action of a foreign key. -/
inductive FKAction where
  | CASCADE
  | SET_NULL
  deriving Repr, DecidableEq

/-- `ForeignKey("products.id", ondelete="SET NULL")` on
`ProductxInvoice.product_id`. -/
def ProductxInvoice.product_id_ondelete : FKAction := .SET_NULL

/-- `ForeignKey("invoices.id", ondelete="SET NULL")` on
`ProductxInvoice.invoice_id`. -/
def ProductxInvoice.invoice_id_ondelete : FKAction := .SET_NULL

/-- Referential action applied to the join rows when the product `pid` is
deleted, according to the declared action on `product_id`. -/
def onDeleteProductJoinRows (act : FKAction) (rows : List PxIRow) (pid : Nat) :
    List PxIRow :=
  match act with
  | .CASCADE => rows.filter (fun r => !(r.product_id == some pid))
  | .SET_NULL =>
      rows.map (fun r =>
        if r.product_id == some pid then { r with product_id := none } else r)

/-- Referential action applied to the join rows when the invoice `iid` is
deleted, according to the declared action on `invoice_id`. -/
def onDeleteInvoiceJoinRows (act : FKAction) (rows : List PxIRow) (iid : Nat) :
    List PxIRow :=
  match act with
  | .CASCADE => rows.filter (fun r => !(r.invoice_id == some iid))
  | .SET_NULL =>
      rows.map (fun r =>
        if r.invoice_id == some iid then { r with invoice_id := none } else r)

/-- Deleting a product row: the row leaves `products` and the declared
ondelete action of the join table's `product_id` FK fires. -/
def deleteProduct (db : DB) (pid : Nat) : DB :=
  { db with
    products := db.products.filter (fun p => !(p.id == pid)),
    productsxinvoices :=
      onDeleteProductJoinRows ProductxInvoice.product_id_ondelete
        db.productsxinvoices pid }

/-- Deleting an invoice row: the row leaves `invoices` and the declared
ondelete action of the join table's `invoice_id` FK fires. -/
def deleteInvoice (db : DB) (iid : Nat) : DB :=
  { db with
    invoices := db.invoices.filter (fun i => !(i.id == iid)),
    productsxinvoices :=
      onDeleteInvoiceJoinRows ProductxInvoice.invoice_id_ondelete
        db.productsxinvoices iid }

/-- The keyword arguments of an invoice update call, i.e. the Python dict
`kwargs`: each field is `none` when the key is absent.  `products` holds
the list of product ids when the key is present. -/
structure UpdateKwargs where
  amount : Option Int := none
  status : Option String := none
  date : Option Nat := none
  products : Option (List Nat) := none
  deriving Repr, DecidableEq

/-- Python truthiness of `kwargs.get("products")`: `None` and `[]` are
falsy, a non-empty list is truthy. -/
def pyTruthy : Option (List Nat) → Bool
  | none => false
  | some l => !l.isEmpty

/-- The state of a `MyUpdateRequest`: the bound invoice id
(`self._instance.id`), the `self.products` attribute set by `update`, and
the values handed to the underlying `super().update` (the plain column
update). -/
structure MyUpdateRequest where
  instance_id : Nat
  products : Option (List Nat)
  values : UpdateKwargs
  deriving Repr, DecidableEq

/-- `MyUpdateRequest.update(self, **kwargs)`:
`self.products = kwargs.get("products")`; `if self.products:
kwargs.pop("products")`; `return super().update(**kwargs)` — the remaining
kwargs are recorded as the pending column values. -/
def MyUpdateRequest.update (self : MyUpdateRequest) (kwargs : UpdateKwargs) :
    MyUpdateRequest :=
  let products := kwargs.products
  let kwargs :=
    if pyTruthy products then { kwargs with products := none } else kwargs
  { self with products := products, values := kwargs }

/-- `invoice.update(**kwargs)`: the ORM instantiates the model's
`_update_request_cls` (here `MyUpdateRequest`) for the instance and calls
its `update` method with the kwargs. -/
def Invoice.updateRequest (instance_id : Nat) (kwargs : UpdateKwargs) :
    MyUpdateRequest :=
  MyUpdateRequest.update
    { instance_id := instance_id, products := none, values := {} } kwargs

/-- A raised Python exception, carrying its rendered message. -/
structure PyError where
  msg : String
  deriving Repr, DecidableEq

/-- `super().apply()` of the update request: the plain column update.  It
rewrites the bound invoice row with the recorded column values
(`products` is not a column of `invoices` and maps to no column write). -/
def superApplyColumns (self : MyUpdateRequest) (db : DB) : DB :=
  { db with
    invoices := db.invoices.map (fun row =>
      if row.id == self.instance_id then
        { row with
          amount := self.values.amount.getD row.amount,
          status := self.values.status.getD row.status,
          date := self.values.date.getD row.date }
      else row) }

/-- `MyUpdateRequest.apply(self)`: first delete every `ProductxInvoice` row
with `invoice_id == self._instance.id`, then `for i in self.products:`
insert a fresh join row per id — when `self.products` is `None` (the
`products` key was absent from the update call) this `for` raises
`TypeError` after the delete has already executed — then run the
underlying column update.  Returns the database state reached together
with the raised exception, if any. -/
def MyUpdateRequest.apply (self : MyUpdateRequest) (db : DB) :
    DB × Option PyError :=
  let db :=
    { db with
      productsxinvoices :=
        db.productsxinvoices.filter
          (fun r => !(r.invoice_id == some self.instance_id)) }
  match self.products with
  | none => (db, some ⟨"TypeError: argument of type NoneType is not iterable"⟩)
  | some l =>
      let db :=
        { db with
          productsxinvoices :=
            db.productsxinvoices ++
              l.map (fun i =>
                { product_id := some i, invoice_id := some self.instance_id }) }
      (superApplyColumns self db, none)

/-- `Model.get(key)`: primary-key lookup in a table of rows. -/
def Product.get (ps : List ProductRow) (pid : Nat) : Option ProductRow :=
  ps.find? (fun p => p.id == pid)

/-- `Store.get(product.store_id)` with a nullable key: `get(None)` finds
no row. -/
def Store.get (ss : List StoreRow) (sid : Option Nat) : Option StoreRow :=
  sid.bind (fun j => ss.find? (fun s => s.id == j))

/-- `Wallet.get(store.wallet_id)` with a nullable key. -/
def Wallet.get (ws : List WalletRow) (wid : Option Nat) : Option WalletRow :=
  wid.bind (fun j => ws.find? (fun w => w.id == j))

/-- Python `repr`/f-string rendering of an `Optional[int]` value:
`None` prints as `None`. -/
def pyOptRepr : Option Nat → String
  | none => "None"
  | some n => toString n

/-- Response of the wallet RPC `addrequest` call. -/
structure RpcResult where
  address : String
  URI : String
  deriving Repr, DecidableEq

/-- An error escaping `Invoice.create`: either a raised
`HTTPException(status, detail)` or a propagated wallet-RPC failure. -/
inductive CreateErr where
  | http (status : Nat) (detail : String)
  | rpcFailure (e : String)
  deriving Repr, DecidableEq

/-- The keyword arguments of `Invoice.create(**kwargs)` as supplied by the
route layer: the column values plus the `products` id list. -/
structure CreateKwargs where
  amount : Int
  status : String
  date : Nat
  products : List Nat
  deriving Repr, DecidableEq

/-- The wallet RPC collaborator: given the wallet's xpub, the invoice
amount and the product description, `btc.addrequest` either returns an
address/URI pair or fails (network error, RPC error).  Endpoint and
credentials (`RPC_URL`, `RPC_USER`, `RPC_PASS`) are process-wide
configuration folded into the function. -/
abbrev RpcCall := String → Int → String → Except String RpcResult

/-- `Invoice.create(cls, **kwargs)`: validate the product chain
(non-empty list → first product → its store → the store's wallet), call
the wallet RPC, then insert exactly one invoice row (the DB assigns the
fresh primary key `newId`) with the RPC's address/URI, with `products`
popped from the kwargs before the insert.  Returns the database reached
together with either the created row and the xpub used, or the error
raised; on any error the database is unchanged. -/
def Invoice.create (db : DB) (rpc : RpcCall) (newId : Nat)
    (kwargs : CreateKwargs) : DB × Except CreateErr (InvoiceRow × String) :=
  match kwargs.products with
  | [] => (db, .error (.http 422 "Products list empty"))
  | pid :: _ =>
      match Product.get db.products pid with
      | none =>
          (db, .error (.http 422 ("Product " ++ toString pid ++ " doesn't exist!")))
      | some product =>
          match Store.get db.stores product.store_id with
          | none =>
              (db, .error (.http 422
                ("Store " ++ pyOptRepr product.store_id ++ " doesn't exist!")))
          | some store =>
              match Wallet.get db.wallets store.wallet_id with
              | none => (db, .error (.http 422 "No wallet linked"))
              | some wallet =>
                  let xpub := wallet.xpub
                  match rpc xpub kwargs.amount product.description with
                  | .error e => (db, .error (.rpcFailure e))
                  | .ok data_got =>
                      let row : InvoiceRow :=
                        { id := newId,
                          amount := kwargs.amount,
                          status := kwargs.status,
                          date := kwargs.date,
                          bitcoin_address := data_got.address,
                          bitcoin_url := data_got.URI }
                      ({ db with invoices := db.invoices ++ [row] },
                       .ok (row, xpub))

/-- One lowercase hexadecimal digit, as produced by Python's
`bytes.hex()`. -/
def hexDigit (n : Nat) : Char :=
  "0123456789abcdef".toList.getD n '0'

/-- `bytes.hex()` on a byte string: two lowercase hex digits per byte,
leading zeros kept. -/
def bytesHex (bs : List Nat) : String :=
  String.mk (bs.flatMap (fun b => [hexDigit (b / 16), hexDigit (b % 16)]))

/-- Modelled from the spec: `utils.now()` (module `api/utils.py`, not part
of the sources at hand) "stamps current UTC timestamp" — it returns the
current UTC time.  The clock is passed in as the parameter `now`, so the
returned timestamp equals the current time. -/
def utils.now (now : Nat) : Nat := now

/-- `Token.create(cls, user)`: `key = os.urandom(20).hex()`,
`created = utils.now()`, then insert one token row linking the key to
`user.id`.  The OS random source is passed in as the byte list
`randomBytes` (20 bytes from `os.urandom(20)`), the clock as `now`. -/
def Token.create (db : DB) (user : UserRow) (randomBytes : List Nat)
    (now : Nat) : DB × TokenRow :=
  let key := bytesHex randomBytes
  let created := utils.now now
  let row : TokenRow := { key := key, user_id := some user.id, created := created }
  ({ db with tokens := db.tokens ++ [row] }, row)

/-! Concrete fixtures used by counterexamples and witnesses: one user, one
wallet, two stores (one with no wallet linked), four products (one with a
dangling store id, one in the wallet-less store), one invoice with two
pre-associated products. -/

def user3 : UserRow :=
  { id := 3, username := "alice", email := "a@b.c",
    hashed_password := "hp", is_superuser := false }

def wallet7 : WalletRow :=
  { id := 7, name := "w", xpub := "xpub1", balance := 0, user_id := some 3 }

def store4 : StoreRow :=
  { id := 4, name := "s", domain := "d", template := "t", email := "e",
    wallet_id := some 7, email_host := "h", email_password := "p",
    email_port := 25, email_use_ssl := false, email_user := "u" }

def store5 : StoreRow :=
  { id := 5, name := "s2", domain := "d2", template := "t", email := "e2",
    wallet_id := none, email_host := "h", email_password := "p",
    email_port := 25, email_use_ssl := false, email_user := "u" }

def product10 : ProductRow :=
  { id := 10, amount := 5, quantity := 1, title := "t10", date := 0,
    description := "desc10", image := "", store_id := some 4, status := "active" }

def product20 : ProductRow :=
  { id := 20, amount := 6, quantity := 1, title := "t20", date := 0,
    description := "desc20", image := "", store_id := some 4, status := "active" }

def product30 : ProductRow :=
  { id := 30, amount := 7, quantity := 1, title := "t30", date := 0,
    description := "desc30", image := "", store_id := some 9, status := "active" }

def product40 : ProductRow :=
  { id := 40, amount := 8, quantity := 1, title := "t40", date := 0,
    description := "desc40", image := "", store_id := some 5, status := "active" }

def invoice1 : InvoiceRow :=
  { id := 1, amount := 5, status := "new", date := 0,
    bitcoin_address := "addr0", bitcoin_url := "url0" }

def db0 : DB :=
  { users := [user3], tokens := [], wallets := [wallet7],
    stores := [store4, store5],
    products := [product10, product20, product30, product40],
    invoices := [invoice1],
    productsxinvoices :=
      [{ product_id := some 10, invoice_id := some 1 },
       { product_id := some 20, invoice_id := some 1 }] }

/-- An RPC stub that always succeeds with a fixed address and URI. -/
def rpcOk : RpcCall := fun _ _ _ => .ok { address := "addrNEW", URI := "bitcoin:addrNEW" }

/-- An RPC stub that always fails. -/
def rpcFail : RpcCall := fun _ _ _ => .error "ConnectionError"

/-- Creation kwargs used by several witnesses: a valid call whose product
list is `[10]`. -/
def kwargsNew : CreateKwargs :=
  { amount := 5, status := "new", date := 0, products := [10] }

/-- The invoice row persisted by `Invoice.create db0 rpcOk 2 kwargsNew`. -/
def rowNew : InvoiceRow :=
  { id := 2, amount := 5, status := "new", date := 0,
    bitcoin_address := "addrNEW", bitcoin_url := "bitcoin:addrNEW" }

/-- The database reached by `Invoice.create db0 rpcOk 2 kwargsNew`. -/
def dbNew : DB := { db0 with invoices := db0.invoices ++ [rowNew] }

/-! Helper lemmas (shared). -/

theorem filter_eq_nil_of_all_not {α : Type} (l : List α) (p : α → Bool)
    (h : l.all (fun a => !(p a)) = true) : l.filter p = [] := by
  induction l with
  | nil => rfl
  | cons a t ih =>
      rw [List.all_cons, Bool.and_eq_true] at h
      rw [List.filter_cons, if_neg]
      · exact ih h.2
      · intro hpa
        rw [hpa] at h
        exact Bool.false_ne_true h.1

theorem hexDigit_contains (n : Nat) :
    ("0123456789abcdef".toList.contains (hexDigit n)) = true := by
  by_cases h : n < 16
  · interval_cases n <;> decide
  · rw [hexDigit, List.getD_eq_default]
    · decide
    · simpa using Nat.le_of_not_lt h

theorem bytesHex_length (bs : List Nat) : (bytesHex bs).length = 2 * bs.length := by
  induction bs with
  | nil => rfl
  | cons b t ih =>
      simp only [bytesHex, String.length] at ih ⊢
      simp [List.flatMap_cons, ih]
      omega

theorem bytesHex_all_hex (bs : List Nat) :
    ((bytesHex bs).toList.all (fun c => "0123456789abcdef".toList.contains c)) = true := by
  rw [List.all_eq_true]
  intro c hc
  have hc' : c ∈ bs.flatMap (fun b => [hexDigit (b / 16), hexDigit (b % 16)]) := hc
  rw [List.mem_flatMap] at hc'
  obtain ⟨b, _, hcb⟩ := hc'
  rcases hcb with _ | ⟨_, hcb2⟩
  · exact hexDigit_contains _
  · rcases hcb2 with _ | ⟨_, h⟩
    · exact hexDigit_contains _
    · cases h

/-! Claim theorems. -/

/-- C1: the claim says an invoice update with the `products` key omitted
leaves the join table untouched.  The code instead deletes every join row
of the invoice first (`apply` always runs the delete) and then raises a
TypeError iterating `self.products`, which is `None`.  Evaluated at the
failing input: a plain column update (`status` only) of invoice 1, which
has two pre-associated products — afterwards the join table has lost both
rows and an exception was raised. -/
theorem C1_omitted_products_wipes_joins_then_raises :
    (MyUpdateRequest.apply
        (Invoice.updateRequest 1 { status := some "paid" }) db0).1.productsxinvoices = []
    ∧ (MyUpdateRequest.apply
        (Invoice.updateRequest 1 { status := some "paid" }) db0).2.isSome = true := by
  constructor
  · rfl
  · rfl

/-- C2 counterexample: with `products` supplied as the empty list the key
is present among the updates, yet `if self.products:` is false on `[]`, so
`kwargs.pop("products")` does not run and the underlying column update
still receives the `products` entry — the claim that a present `products`
list is always extracted is false. -/
theorem C2_empty_products_not_extracted :
    (Invoice.updateRequest 1 { products := some [] }).values.products = some []
    ∧ ¬ (Invoice.updateRequest 1 { products := some [] }).values.products = none := by
  constructor
  · rfl
  · intro h
    simp [Invoice.updateRequest, MyUpdateRequest.update, pyTruthy] at h

/-- C2 (amended): for every invoice update in which a NON-EMPTY `products`
list is present among the supplied fields, the `products` entry is
extracted and not applied as a plain column write — the underlying column
update receives only the remaining fields — and the request keeps the
list for the join-table phase, so the association is not dropped.  (An
empty `products` list is not extracted: it stays among the values handed
to the column update.) -/
theorem C2_nonempty_products_extracted (instance_id : Nat)
    (kwargs : UpdateKwargs) (l : List Nat)
    (hp : kwargs.products = some l) (hne : l ≠ []) :
    (Invoice.updateRequest instance_id kwargs).values = { kwargs with products := none }
    ∧ (Invoice.updateRequest instance_id kwargs).products = some l := by
  have htrue : pyTruthy (some l) = true := by
    rw [pyTruthy]
    simpa using hne
  refine ⟨?_, ?_⟩ <;>
    simp [Invoice.updateRequest, MyUpdateRequest.update, htrue, hp]

/-- C2 witness: the amended theorem applied to an update of invoice 1 with
the one-element product list `[10]`. -/
theorem C2_nonempty_products_extracted_witness :
    (Invoice.updateRequest 1 { products := some [10] }).values =
      ({ } : UpdateKwargs)
    ∧ (Invoice.updateRequest 1 { products := some [10] }).products = some [10] :=
  C2_nonempty_products_extracted 1 { products := some [10] } [10] rfl (by decide)

/-- C3 counterexample: both foreign keys of the join table are declared
`ondelete="SET NULL"`, not CASCADE, and deleting product 10 — referenced
by the first join row of `db0` — does not delete that join row: it
survives with `product_id` nulled, the table keeping both rows. -/
theorem C3_cascade_refuted :
    ProductxInvoice.product_id_ondelete ≠ FKAction.CASCADE
    ∧ ProductxInvoice.invoice_id_ondelete ≠ FKAction.CASCADE
    ∧ (deleteProduct db0 10).productsxinvoices =
        [{ product_id := none, invoice_id := some 1 },
         { product_id := some 20, invoice_id := some 1 }]
    ∧ (deleteProduct db0 10).productsxinvoices.length =
        db0.productsxinvoices.length := by
  refine ⟨by decide, by decide, rfl, rfl⟩

/-- C3 (amended): both foreign keys of the join table carry
`ON DELETE SET NULL`: deleting the referenced Product (resp. Invoice)
keeps every join row — the row count is preserved — and sets the
`product_id` (resp. `invoice_id`) of the rows that referenced it to NULL,
so no surviving join row still references the deleted side. -/
theorem C3_set_null_semantics (db : DB) (pid iid : Nat) :
    ProductxInvoice.product_id_ondelete = FKAction.SET_NULL
    ∧ ProductxInvoice.invoice_id_ondelete = FKAction.SET_NULL
    ∧ (deleteProduct db pid).productsxinvoices.length = db.productsxinvoices.length
    ∧ (deleteProduct db pid).productsxinvoices.all
        (fun r => !(r.product_id == some pid)) = true
    ∧ (deleteInvoice db iid).productsxinvoices.length = db.productsxinvoices.length
    ∧ (deleteInvoice db iid).productsxinvoices.all
        (fun r => !(r.invoice_id == some iid)) = true := by
  refine ⟨rfl, rfl, ?_, ?_, ?_, ?_⟩
  · simp [deleteProduct, onDeleteProductJoinRows, ProductxInvoice.product_id_ondelete]
  · rw [List.all_eq_true]
    intro r hr
    simp only [deleteProduct, onDeleteProductJoinRows,
      ProductxInvoice.product_id_ondelete, List.mem_map] at hr
    obtain ⟨r0, _, hr0⟩ := hr
    by_cases h : r0.product_id == some pid
    · rw [if_pos h] at hr0
      rw [← hr0]
      rfl
    · rw [if_neg h] at hr0
      rw [← hr0]
      simpa using h
  · simp [deleteInvoice, onDeleteInvoiceJoinRows, ProductxInvoice.invoice_id_ondelete]
  · rw [List.all_eq_true]
    intro r hr
    simp only [deleteInvoice, onDeleteInvoiceJoinRows,
      ProductxInvoice.invoice_id_ondelete, List.mem_map] at hr
    obtain ⟨r0, _, hr0⟩ := hr
    by_cases h : r0.invoice_id == some iid
    · rw [if_pos h] at hr0
      rw [← hr0]
      rfl
    · rw [if_neg h] at hr0
      rw [← hr0]
      simpa using h

/-- C3 witness: the amended theorem applied to the fixture database,
deleting product 10 and invoice 1. -/
theorem C3_set_null_semantics_witness :
    (deleteProduct db0 10).productsxinvoices.length = db0.productsxinvoices.length
    ∧ (deleteInvoice db0 1).productsxinvoices.all
        (fun r => !(r.invoice_id == some 1)) = true :=
  ⟨(C3_set_null_semantics db0 10 1).2.2.1,
   (C3_set_null_semantics db0 10 1).2.2.2.2.2⟩

/-- C4: when the products list is non-empty, its first id resolves to a
product, that product's store resolves, and the store's wallet resolves,
and the RPC call succeeds, `Invoice.create` persists exactly one invoice
row — appended to `invoices`, every other table untouched — whose
`bitcoin_address` and `bitcoin_url` equal verbatim the address and URI
returned by the wallet RPC call, and returns that row together with the
resolved wallet's xpub. -/
theorem C4_create_success (db : DB) (rpc : RpcCall) (newId : Nat)
    (kwargs : CreateKwargs) (pid : Nat) (rest : List Nat)
    (product : ProductRow) (store : StoreRow) (wallet : WalletRow)
    (data : RpcResult)
    (hp : kwargs.products = pid :: rest)
    (hprod : Product.get db.products pid = some product)
    (hstore : Store.get db.stores product.store_id = some store)
    (hwallet : Wallet.get db.wallets store.wallet_id = some wallet)
    (hrpc : rpc wallet.xpub kwargs.amount product.description = .ok data) :
    Invoice.create db rpc newId kwargs =
      ({ db with invoices := db.invoices ++
          [{ id := newId, amount := kwargs.amount, status := kwargs.status,
             date := kwargs.date, bitcoin_address := data.address,
             bitcoin_url := data.URI }] },
       .ok ({ id := newId, amount := kwargs.amount, status := kwargs.status,
              date := kwargs.date, bitcoin_address := data.address,
              bitcoin_url := data.URI }, wallet.xpub)) := by
  rw [Invoice.create, hp]
  simp [hprod, hstore, hwallet, hrpc]

/-- C4 witness: the theorem applied to the fixture database, the
always-succeeding RPC stub and the product list `[10]`. -/
theorem C4_create_success_witness :
    Invoice.create db0 rpcOk 2 kwargsNew = (dbNew, .ok (rowNew, "xpub1")) :=
  C4_create_success db0 rpcOk 2 kwargsNew 10 [] product10 store4 wallet7
    { address := "addrNEW", URI := "bitcoin:addrNEW" } rfl rfl rfl rfl rfl

/-- C5: when the whole validation chain resolves but the wallet RPC call
fails, the failure propagates to the caller unmodified — the returned
error carries the RPC failure verbatim, wrapped in no HTTP error — and the
database is unchanged: no invoice row is persisted. -/
theorem C5_rpc_failure_propagates (db : DB) (rpc : RpcCall) (newId : Nat)
    (kwargs : CreateKwargs) (pid : Nat) (rest : List Nat)
    (product : ProductRow) (store : StoreRow) (wallet : WalletRow) (e : String)
    (hp : kwargs.products = pid :: rest)
    (hprod : Product.get db.products pid = some product)
    (hstore : Store.get db.stores product.store_id = some store)
    (hwallet : Wallet.get db.wallets store.wallet_id = some wallet)
    (hrpc : rpc wallet.xpub kwargs.amount product.description = .error e) :
    Invoice.create db rpc newId kwargs = (db, .error (.rpcFailure e)) := by
  rw [Invoice.create, hp]
  simp [hprod, hstore, hwallet, hrpc]

/-- C5 witness: the theorem applied to the fixture database and the
always-failing RPC stub. -/
theorem C5_rpc_failure_propagates_witness :
    Invoice.create db0 rpcFail 2 kwargsNew =
      (db0, .error (.rpcFailure "ConnectionError")) :=
  C5_rpc_failure_propagates db0 rpcFail 2 kwargsNew 10 [] product10 store4
    wallet7 "ConnectionError" rfl rfl rfl rfl rfl

/-- C6: each unmet precondition of `Invoice.create` fails with a 422
error carrying the fixed message, the checks run in source order (each
later failure presupposes the earlier checks passed), and the database is
returned unchanged — no writes are performed. -/
theorem C6_validation_errors (db : DB) (rpc : RpcCall) (newId : Nat)
    (kwargs : CreateKwargs) :
    (kwargs.products = [] →
      Invoice.create db rpc newId kwargs =
        (db, .error (.http 422 "Products list empty")))
    ∧ (∀ pid rest, kwargs.products = pid :: rest →
        Product.get db.products pid = none →
        Invoice.create db rpc newId kwargs =
          (db, .error (.http 422 ("Product " ++ toString pid ++ " doesn't exist!"))))
    ∧ (∀ pid rest product, kwargs.products = pid :: rest →
        Product.get db.products pid = some product →
        Store.get db.stores product.store_id = none →
        Invoice.create db rpc newId kwargs =
          (db, .error (.http 422
            ("Store " ++ pyOptRepr product.store_id ++ " doesn't exist!"))))
    ∧ (∀ pid rest product store, kwargs.products = pid :: rest →
        Product.get db.products pid = some product →
        Store.get db.stores product.store_id = some store →
        Wallet.get db.wallets store.wallet_id = none →
        Invoice.create db rpc newId kwargs =
          (db, .error (.http 422 "No wallet linked"))) := by
  refine ⟨?_, ?_, ?_, ?_⟩
  · intro hp
    rw [Invoice.create, hp]
  · intro pid rest hp hprod
    rw [Invoice.create, hp]
    simp [hprod]
  · intro pid rest product hp hprod hstore
    rw [Invoice.create, hp]
    simp [hprod, hstore]
  · intro pid rest product store hp hprod hstore hwallet
    rw [Invoice.create, hp]
    simp [hprod, hstore, hwallet]

/-- C6 witness: the four failure branches evaluated on the fixture
database — empty list, nonexistent product 99, product 30 with a dangling
store id 9, product 40 whose store 5 has no wallet linked. -/
theorem C6_validation_errors_witness :
    Invoice.create db0 rpcOk 2 { amount := 5, status := "new", date := 0, products := [] } =
      (db0, .error (.http 422 "Products list empty"))
    ∧ Invoice.create db0 rpcOk 2 { amount := 5, status := "new", date := 0, products := [99] } =
      (db0, .error (.http 422 "Product 99 doesn't exist!"))
    ∧ Invoice.create db0 rpcOk 2 { amount := 5, status := "new", date := 0, products := [30] } =
      (db0, .error (.http 422 "Store 9 doesn't exist!"))
    ∧ Invoice.create db0 rpcOk 2 { amount := 5, status := "new", date := 0, products := [40] } =
      (db0, .error (.http 422 "No wallet linked")) :=
  ⟨(C6_validation_errors db0 rpcOk 2
      { amount := 5, status := "new", date := 0, products := [] }).1 rfl,
   (C6_validation_errors db0 rpcOk 2
      { amount := 5, status := "new", date := 0, products := [99] }).2.1 99 [] rfl rfl,
   (C6_validation_errors db0 rpcOk 2
      { amount := 5, status := "new", date := 0, products := [30] }).2.2.1
      30 [] product30 rfl rfl rfl,
   (C6_validation_errors db0 rpcOk 2
      { amount := 5, status := "new", date := 0, products := [40] }).2.2.2
      40 [] product40 store5 rfl rfl rfl rfl⟩

/-- C7: only the first product id of the supplied list determines the
outcome of `Invoice.create` — the resolved store, wallet, xpub and the
whole result are invariant under replacing the remaining ids by any other
list, so the tail ids are neither resolved nor validated. -/
theorem C7_only_first_product_matters (db : DB) (rpc : RpcCall) (newId : Nat)
    (amount : Int) (status : String) (date : Nat) (pid : Nat)
    (t1 t2 : List Nat) :
    Invoice.create db rpc newId
      { amount := amount, status := status, date := date, products := pid :: t1 } =
    Invoice.create db rpc newId
      { amount := amount, status := status, date := date, products := pid :: t2 } := rfl

/-- C7 witness: the theorem applied with the same head product 10 and two
different tails, one of which contains the nonexistent product id 99 —
the results coincide, so the tail is never resolved or validated. -/
theorem C7_only_first_product_matters_witness :
    Invoice.create db0 rpcOk 2
      { amount := 5, status := "new", date := 0, products := [10, 99, 30] } =
    Invoice.create db0 rpcOk 2
      { amount := 5, status := "new", date := 0, products := [10, 40] } :=
  C7_only_first_product_matters db0 rpcOk 2 5 "new" 0 10 [99, 30] [40]

/-- C8: an invoice update carrying a non-empty `products` list applies by
deleting every existing join row of the invoice, inserting exactly one
fresh join row per id of the new list (replace semantics), and then
running the underlying column update with the remaining fields; no
exception is raised. -/
theorem C8_apply_replaces_joins (db : DB) (instance_id : Nat)
    (kwargs : UpdateKwargs) (l : List Nat)
    (hp : kwargs.products = some l) (hne : l ≠ []) :
    (MyUpdateRequest.apply (Invoice.updateRequest instance_id kwargs) db).2 = none
    ∧ (MyUpdateRequest.apply (Invoice.updateRequest instance_id kwargs) db).1.productsxinvoices =
        db.productsxinvoices.filter (fun r => !(r.invoice_id == some instance_id))
          ++ l.map (fun i => { product_id := some i, invoice_id := some instance_id })
    ∧ (MyUpdateRequest.apply (Invoice.updateRequest instance_id kwargs) db).1.invoices =
        db.invoices.map (fun row =>
          if row.id == instance_id then
            { row with
              amount := kwargs.amount.getD row.amount,
              status := kwargs.status.getD row.status,
              date := kwargs.date.getD row.date }
          else row) := by
  have htrue : pyTruthy (some l) = true := by
    rw [pyTruthy]
    simpa using hne
  refine ⟨?_, ?_, ?_⟩ <;>
    simp [Invoice.updateRequest, MyUpdateRequest.update, MyUpdateRequest.apply,
      superApplyColumns, hp, htrue]

/-- C8 witness: updating invoice 1 — pre-associated with products 10 and
20 — with the list `[20, 30]` replaces the join rows and applies the
`status` column update. -/
theorem C8_apply_replaces_joins_witness :
    (MyUpdateRequest.apply
        (Invoice.updateRequest 1 { status := some "paid", products := some [20, 30] }) db0).2 = none
    ∧ (MyUpdateRequest.apply
        (Invoice.updateRequest 1 { status := some "paid", products := some [20, 30] }) db0).1.productsxinvoices =
        db0.productsxinvoices.filter (fun r => !(r.invoice_id == some 1))
          ++ [20, 30].map (fun i => { product_id := some i, invoice_id := some 1 })
    ∧ (MyUpdateRequest.apply
        (Invoice.updateRequest 1 { status := some "paid", products := some [20, 30] }) db0).1.invoices =
        db0.invoices.map (fun row =>
          if row.id == 1 then
            { row with
              amount := (none : Option Int).getD row.amount,
              status := (some "paid").getD row.status,
              date := (none : Option Nat).getD row.date }
          else row) :=
  C8_apply_replaces_joins db0 1 { status := some "paid", products := some [20, 30] }
    [20, 30] rfl (by decide)

/-- C9: creating a token for a persisted user appends exactly one token
row to `tokens`; its key is the hex encoding of the 20 random bytes — 40
characters, all lowercase hexadecimal — its `created` timestamp is the
current UTC time (hence ≤ now), and its `user_id` equals the id of the
given user. -/
theorem C9_token_create (db : DB) (user : UserRow) (bs : List Nat) (now : Nat)
    (hlen : bs.length = 20) :
    (Token.create db user bs now).1 =
      { db with tokens := db.tokens ++ [(Token.create db user bs now).2] }
    ∧ (Token.create db user bs now).2.key.length = 40
    ∧ ((Token.create db user bs now).2.key.toList.all
        (fun c => "0123456789abcdef".toList.contains c)) = true
    ∧ (Token.create db user bs now).2.created ≤ now
    ∧ (Token.create db user bs now).2.user_id = some user.id := by
  refine ⟨rfl, ?_, ?_, le_refl _, rfl⟩
  · show (bytesHex bs).length = 40
    rw [bytesHex_length, hlen]
  · exact bytesHex_all_hex bs

/-- C9 witness: the theorem applied to the fixture user with the 20
concrete bytes `0, 1, ..., 19` and clock value 1000. -/
theorem C9_token_create_witness :
    (Token.create db0 user3 (List.range 20) 1000).1 =
      { db0 with tokens := db0.tokens ++ [(Token.create db0 user3 (List.range 20) 1000).2] }
    ∧ (Token.create db0 user3 (List.range 20) 1000).2.key.length = 40
    ∧ ((Token.create db0 user3 (List.range 20) 1000).2.key.toList.all
        (fun c => "0123456789abcdef".toList.contains c)) = true
    ∧ (Token.create db0 user3 (List.range 20) 1000).2.created ≤ 1000
    ∧ (Token.create db0 user3 (List.range 20) 1000).2.user_id = some user3.id :=
  C9_token_create db0 user3 (List.range 20) 1000 (by decide)

/-- C10: a successful `Invoice.create` inserts no join rows — the
products list is popped from the kwargs before the row insert — so the
join table is unchanged and, the new id being fresh, the created invoice
has zero persisted product associations. -/
theorem C10_create_inserts_no_join_rows (db : DB) (rpc : RpcCall) (newId : Nat)
    (kwargs : CreateKwargs) (dbAfter : DB) (row : InvoiceRow) (xpub : String)
    (h : Invoice.create db rpc newId kwargs = (dbAfter, .ok (row, xpub)))
    (hfresh : db.productsxinvoices.all
      (fun r => !(r.invoice_id == some newId)) = true) :
    dbAfter.productsxinvoices = db.productsxinvoices
    ∧ dbAfter.productsxinvoices.filter
        (fun r => r.invoice_id == some row.id) = [] := by
  rw [Invoice.create] at h
  split at h
  · simp at h
  · split at h
    · simp at h
    · split at h
      · simp at h
      · split at h
        · simp at h
        · dsimp only at h
          split at h
          · simp at h
          · simp only [Prod.mk.injEq, Except.ok.injEq] at h
            obtain ⟨h1, h2, h3⟩ := h
            subst h1
            subst h2
            refine ⟨rfl, ?_⟩
            exact filter_eq_nil_of_all_not _ _ hfresh

/-- C10 witness: the theorem applied to the fixture creation
`Invoice.create db0 rpcOk 2 kwargsNew`, whose fresh invoice id 2 appears
in no pre-existing join row. -/
theorem C10_create_inserts_no_join_rows_witness :
    dbNew.productsxinvoices = db0.productsxinvoices
    ∧ dbNew.productsxinvoices.filter
        (fun r => r.invoice_id == some rowNew.id) = [] :=
  C10_create_inserts_no_join_rows db0 rpcOk 2 kwargsNew dbNew rowNew "xpub1"
    rfl (by decide)

end Bitcart
